import Mathlib

/-!
Verification development for the Tedee and La Marzocco integrations of
zweckj/home-assistant-core.  The definitions below are shallow embeddings of
the Python functions in
src/homeassistant/components/tedee/__init__.py,
src/homeassistant/components/tedee/coordinator.py,
src/homeassistant/components/lamarzocco/coordinator.py,
src/homeassistant/components/lamarzocco/services.py,
src/homeassistant/components/lamarzocco/number.py and
src/homeassistant/components/lamarzocco/update.py.
Python exceptions are modelled with explicit outcome types, the aiohttp
request with a record of the fields the handler reads, and side effects
(vendor parser calls, listener notifications, callback invocations) with
explicit event values returned alongside the result.
-/

/-- Outcome of a coordinator update or service call: either normal return, one
of the host-framework exceptions raised by the integration code
(ConfigEntryAuthFailed, UpdateFailed, HomeAssistantError, each carrying its
message), or an exception of the vendor type that the integration does not
catch and lets propagate. -/
inductive Outcome (ε : Type) where
  | ok
  | configEntryAuthFailed (message : String)
  | updateFailed (message : String)
  | homeAssistantError (message : String)
  | uncaught (exc : ε)
deriving DecidableEq, Repr

namespace Tedee

/-- The JSON envelope returned by HomeAssistantView.json(result=..., status_code=...):
the result string and the HTTP status code. -/
structure JsonResponse where
  result : String
  status_code : Nat
deriving DecidableEq, Repr

/-- Observable side effects of the webhook handler: a call of
tedee_client.parse_webhook_message with a body, and a call of
coordinator.async_update_listeners. -/
inductive TedeeEvent (β : Type) where
  | parseCall (body : β)
  | notifyListeners
deriving DecidableEq, Repr

/-- The fields of the aiohttp Request that async_webhook_handler reads:
request.body_exists, request.headers.get("Authorization") (none when the
header is absent), and the JSON body obtained from request.json(). -/
structure Request (β : Type) where
  body_exists : Bool
  authorization : Option String
  body : β

/-- Embeds TedeeApiCoordinator.webhook_received (coordinator.py lines 115-118):
it calls tedee_client.parse_webhook_message(message) and then
async_update_listeners().  The vendor parser is a parameter returning either
unit or the message of a raised TedeeWebhookException; when it raises, the
exception propagates and the listeners are not notified.  The returned list
records the performed effects in order. -/
def webhook_received {β : Type} (parse_webhook_message : β → Except String Unit)
    (message : β) : Except String Unit × List (TedeeEvent β) :=
  match parse_webhook_message message with
  | Except.ok _ => (Except.ok (), [TedeeEvent.parseCall message, TedeeEvent.notifyListeners])
  | Except.error m => (Except.error m, [TedeeEvent.parseCall message])

/-- Embeds async_webhook_handler (tedee/__init__.py lines 122-144): a missing
body yields the "No Body" / 400 envelope; an Authorization header different
from the api_key bound at registration yields "Unauthorized" / 401; otherwise
the body goes to coordinator.webhook_received, a raised TedeeWebhookException
is answered with its message / 400, and success with "OK" / 200. -/
def async_webhook_handler {β : Type} (parse_webhook_message : β → Except String Unit)
    (api_key : String) (request : Request β) : JsonResponse × List (TedeeEvent β) :=
  if !request.body_exists then
    ({ result := "No Body", status_code := 400 }, [])
  else if request.authorization ≠ some api_key then
    ({ result := "Unauthorized", status_code := 401 }, [])
  else
    match webhook_received parse_webhook_message request.body with
    | (Except.ok _, events) => ({ result := "OK", status_code := 200 }, events)
    | (Except.error m, events) => ({ result := m, status_code := 400 }, events)

/-- The vendor SDK exceptions of pytedee_async that a lock update can raise,
each carrying str(ex), plus a case for any other exception the try/except in
TedeeApiCoordinator._async_update does not name. -/
inductive TedeeExc where
  | tedeeLocalAuthException (message : String)
  | tedeeDataUpdateException (message : String)
  | tedeeClientException (message : String)
  | timeoutError (message : String)
  | otherException (message : String)
deriving DecidableEq, Repr

/-- Embeds TedeeApiCoordinator._async_update (coordinator.py lines 100-113).
The update function is a stream of per-invocation results indexed by the
invocation number; the second component of the result counts how many times
update_fn was awaited, which the straight-line try/except fixes at one.
TedeeLocalAuthException is re-raised as ConfigEntryAuthFailed,
TedeeDataUpdateException as UpdateFailed with the data-update message,
TedeeClientException and TimeoutError as UpdateFailed with the querying
message; any other exception propagates unchanged. -/
def coordinator_async_update (update_fn : Nat → Except TedeeExc Unit) :
    Outcome TedeeExc × Nat :=
  match update_fn 0 with
  | Except.ok _ => (Outcome.ok, 1)
  | Except.error (TedeeExc.tedeeLocalAuthException _) =>
      (Outcome.configEntryAuthFailed
        "Authentication failed. Local access token is invalid", 1)
  | Except.error (TedeeExc.tedeeDataUpdateException m) =>
      (Outcome.updateFailed ("Error while updating data: " ++ m), 1)
  | Except.error (TedeeExc.tedeeClientException m) =>
      (Outcome.updateFailed ("Querying API failed. Error: " ++ m), 1)
  | Except.error (TedeeExc.timeoutError m) =>
      (Outcome.updateFailed ("Querying API failed. Error: " ++ m), 1)
  | Except.error e => (Outcome.uncaught e, 1)

/-- The bridge data the coordinator exposes (pytedee_async TedeeBridge): the
fields read by this integration are the serial and the name. -/
structure TedeeBridge where
  serial : String
  name : String
deriving DecidableEq, Repr

/-- Embeds the characters pool of generate_api_key (tedee/__init__.py lines
57-60): string.ascii_letters + string.digits. -/
def characters : String :=
  "abcdefghijklmnopqrstuvwxyzABCDEFGHIJKLMNOPQRSTUVWXYZ0123456789"

/-- Embeds generate_api_key (tedee/__init__.py lines 57-60): a password of
the given length whose characters are drawn from the pool by secrets.choice.
The randomness source is modelled as a stream of indices, one consumed per
secrets.choice call, reduced modulo the pool size. -/
def generate_api_key (choice : Nat → Nat) (length : Nat) : String :=
  String.mk ((List.range length).map
    (fun i => characters.toList.getD (choice i % characters.toList.length) 'a'))

/-- What register_webhook binds: the api_key passed to get_webhook_handler
(the value the handler later compares against the Authorization header), and
the value sent to the bridge in headers=[with key "Authorization"] through
coordinator.async_register_webhook. -/
structure WebhookRegistration where
  handler_api_key : String
  bridge_headers_authorization : String
deriving DecidableEq, Repr

/-- Embeds register_webhook (tedee/__init__.py lines 66-97) restricted to the
shared-secret dataflow: api_key = generate_api_key() is computed locally from
the random stream, bound into the webhook handler, and sent to the bridge in
the Authorization header.  The coordinator bridge is in scope in the source
(coordinator.bridge) but is never consulted to produce the key; it is kept as
an argument here so that the dependence of the key on it can be stated. -/
def register_webhook (bridge : TedeeBridge) (choice : Nat → Nat) :
    WebhookRegistration :=
  { handler_api_key := generate_api_key choice 16,
    bridge_headers_authorization := generate_api_key choice 16 }

/-- Embeds the new-lock bookkeeping at the end of
TedeeApiCoordinator._async_update_data (coordinator.py lines 89-98), given
the number of registered new_lock_callbacks, the current value of the set
_current_locks, and the key set of tedee_client.locks_dict after the fetch.
When _current_locks is falsy (empty) it is assigned the fetched key set;
then every callback is invoked for every lock id in the difference
new_locks = keys - _current_locks.  The result is the new _current_locks and
the set of performed invocations as pairs (lock_id, callback index). -/
def update_data_locks_step (new_lock_callbacks : Nat)
    (current_locks locks_dict_keys : Finset Nat) :
    Finset Nat × Finset (Nat × Nat) :=
  let current_locks :=
    if current_locks = ∅ then locks_dict_keys else current_locks
  let new_locks := locks_dict_keys \ current_locks
  (current_locks, Finset.product new_locks (Finset.range new_lock_callbacks))

/-- Iterates update_data_locks_step over a list of successive fetched key
sets, one per coordinator refresh, returning the final _current_locks and the
per-refresh callback invocations. -/
def update_data_locks_run (new_lock_callbacks : Nat) (current_locks : Finset Nat) :
    List (Finset Nat) → Finset Nat × List (Finset (Nat × Nat))
  | [] => (current_locks, [])
  | keys :: rest =>
    let step := update_data_locks_step new_lock_callbacks current_locks keys
    let next := update_data_locks_run new_lock_callbacks step.1 rest
    (next.1, step.2 :: next.2)

end Tedee

namespace LaMarzocco

/-- The vendor SDK exceptions of lmcloud together with the builtin
TimeoutError, each carrying str(ex), plus a case for any other exception the
integration code does not name. -/
inductive LmExc where
  | authFail (message : String)
  | requestNotSuccessful (message : String)
  | timeoutError (message : String)
  | otherException (message : String)
deriving DecidableEq, Repr

/-- Embeds LaMarzoccoUpdateCoordinator._async_handle_request
(lamarzocco/coordinator.py lines 125-136).  The request function is a stream
of per-invocation results; the second component counts the awaits of func,
fixed at one by the straight-line try/except.  AuthFail is re-raised as
ConfigEntryAuthFailed with the fixed message, RequestNotSuccessful as
UpdateFailed with the querying message; every other exception, TimeoutError
included, propagates unchanged. -/
def coordinator_handle_request (func : Nat → Except LmExc Unit) :
    Outcome LmExc × Nat :=
  match func 0 with
  | Except.ok _ => (Outcome.ok, 1)
  | Except.error (LmExc.authFail _) =>
      (Outcome.configEntryAuthFailed "Authentication failed.", 1)
  | Except.error (LmExc.requestNotSuccessful m) =>
      (Outcome.updateFailed ("Querying API failed. Error: " ++ m), 1)
  | Except.error e => (Outcome.uncaught e, 1)

/-- Embeds the private service helper (name-mangled __call_service) of
lamarzocco/services.py lines 110-117.  The forwarded vendor coroutine is a
stream of per-invocation results; the second component counts its awaits,
fixed at one.  AuthFail, RequestNotSuccessful and TimeoutError are re-raised
as HomeAssistantError carrying the service-call message; any other exception
propagates unchanged; a normal vendor return is returned unchanged. -/
def call_service (func : Nat → Except LmExc Unit) : Outcome LmExc × Nat :=
  match func 0 with
  | Except.ok _ => (Outcome.ok, 1)
  | Except.error (LmExc.authFail m) =>
      (Outcome.homeAssistantError ("Service call encountered error: " ++ m), 1)
  | Except.error (LmExc.requestNotSuccessful m) =>
      (Outcome.homeAssistantError ("Service call encountered error: " ++ m), 1)
  | Except.error (LmExc.timeoutError m) =>
      (Outcome.homeAssistantError ("Service call encountered error: " ++ m), 1)
  | Except.error e => (Outcome.uncaught e, 1)

/-- Embeds lm.current_status.get(key, d): the machine status mapping is an
association list from field names to numeric values, and get returns the
bound value or the default d. -/
def current_status_get (current_status : List (String × ℚ)) (key : String)
    (d : ℚ) : ℚ :=
  match current_status.lookup key with
  | some v => v
  | none => d

/-- Embeds the native_value_fn of the number entity with key "prebrew_off"
(lamarzocco/number.py lines 104-106):
lm.current_status.get(with field name prebrewing_ton_k followed by the key
number, 5). -/
def prebrew_off_native_value_fn (lm : List (String × ℚ)) (key : Nat) : ℚ :=
  current_status_get lm ("prebrewing_ton_k" ++ toString key) 5

/-- Embeds the native_value_fn of the number entity with key "prebrew_on"
(lamarzocco/number.py lines 130-132):
lm.current_status.get(with field name prebrewing_toff_k followed by the key
number and a trailing right-bracket character, 5) — the trailing bracket is
in the source. -/
def prebrew_on_native_value_fn (lm : List (String × ℚ)) (key : Nat) : ℚ :=
  current_status_get lm ("prebrewing_toff_k" ++ toString key ++ "]") 5

/-- The prebrew off-time field of the machine status as the claim names it:
the field prebrewing_toff_k followed by the key number, defaulting to 5.
This is the field the prebrew_off set_value_fn writes (number.py line 101)
and reads back (line 127). -/
def prebrew_off_time_field (lm : List (String × ℚ)) (key : Nat) : ℚ :=
  current_status_get lm ("prebrewing_toff_k" ++ toString key) 5

/-- The prebrew on-time field of the machine status as the claim names it:
the field prebrewing_ton_k followed by the key number, defaulting to 5.
This is the field the prebrew_on set_value_fn writes (number.py line 126)
and the prebrew_off set_value_fn reads to preserve it (line 100). -/
def prebrew_on_time_field (lm : List (String × ℚ)) (key : Nat) : ℚ :=
  current_status_get lm ("prebrewing_ton_k" ++ toString key) 5

/-- The mutable state of LaMarzoccoUpdateEntity read by the in_progress
property (lamarzocco/update.py lines 90-100). -/
structure UpdateEntityState where
  _update_in_progress : Bool
deriving DecidableEq, Repr

/-- Embeds the in_progress property (update.py lines 97-100). -/
def in_progress (entity : UpdateEntityState) : Bool :=
  entity._update_in_progress

/-- Embeds LaMarzoccoUpdateEntity.async_install (update.py lines 112-122):
_update_in_progress is set to True, the vendor update_fn is awaited giving
success; on success = False a HomeAssistantError with message "Update failed"
is raised, leaving the flag True; otherwise the flag is reset to False.  The
result pairs the final entity state with the raised message, if any. -/
def async_install (entity : UpdateEntityState) (success : Bool) :
    UpdateEntityState × Option String :=
  let entity := { entity with _update_in_progress := true }
  if !success then (entity, some "Update failed")
  else ({ entity with _update_in_progress := false }, none)

end LaMarzocco

namespace Tedee

/-- C1: a POST request with a body whose Authorization header differs from the
registered shared secret is answered with the envelope result "Unauthorized"
and HTTP status 401, and no effect happens: the body is never forwarded to the
vendor parser, so coordinator.webhook_received is not called. -/
theorem webhook_wrong_auth_unauthorized {β : Type}
    (parse_webhook_message : β → Except String Unit) (api_key : String)
    (request : Request β) (hbody : request.body_exists = true)
    (hauth : request.authorization ≠ some api_key) :
    async_webhook_handler parse_webhook_message api_key request =
      ({ result := "Unauthorized", status_code := 401 }, []) := by
  unfold async_webhook_handler
  rw [hbody]
  simp [hauth]

/-- Witness for C1 at a concrete request. -/
theorem webhook_wrong_auth_unauthorized_witness :
    async_webhook_handler (fun _ : Nat => Except.ok ()) "secret"
        { body_exists := true, authorization := some "wrong", body := 0 } =
      ({ result := "Unauthorized", status_code := 401 }, []) :=
  webhook_wrong_auth_unauthorized _ _ _ rfl (by decide)

/-- C2: a POST request with a body, the correct Authorization secret, and a
body the vendor parser accepts is answered with the envelope result "OK" and
HTTP status 200, after forwarding exactly that body to the vendor parser and
then notifying the coordinator listeners. -/
theorem webhook_authorized_ok {β : Type}
    (parse_webhook_message : β → Except String Unit) (api_key : String)
    (request : Request β) (hbody : request.body_exists = true)
    (hauth : request.authorization = some api_key)
    (hparse : parse_webhook_message request.body = Except.ok ()) :
    async_webhook_handler parse_webhook_message api_key request =
      ({ result := "OK", status_code := 200 },
        [TedeeEvent.parseCall request.body, TedeeEvent.notifyListeners]) := by
  unfold async_webhook_handler webhook_received
  rw [hbody, hauth, hparse]
  simp

/-- Witness for C2 at a concrete request. -/
theorem webhook_authorized_ok_witness :
    async_webhook_handler (fun _ : Nat => Except.ok ()) "secret"
        { body_exists := true, authorization := some "secret", body := 7 } =
      ({ result := "OK", status_code := 200 },
        [TedeeEvent.parseCall 7, TedeeEvent.notifyListeners]) :=
  webhook_authorized_ok _ _ _ rfl rfl rfl

/-- C3: on an authorized POST request with a body on which the vendor parser
raises TedeeWebhookException with message m, the handler answers with the
envelope result m and HTTP status 400, and the listeners are not notified:
the only effect is the parser call. -/
theorem webhook_parse_error_bad_request {β : Type}
    (parse_webhook_message : β → Except String Unit) (api_key : String)
    (request : Request β) (m : String) (hbody : request.body_exists = true)
    (hauth : request.authorization = some api_key)
    (hparse : parse_webhook_message request.body = Except.error m) :
    async_webhook_handler parse_webhook_message api_key request =
      ({ result := m, status_code := 400 }, [TedeeEvent.parseCall request.body]) ∧
    TedeeEvent.notifyListeners ∉
      (async_webhook_handler parse_webhook_message api_key request).2 := by
  have h : async_webhook_handler parse_webhook_message api_key request =
      ({ result := m, status_code := 400 }, [TedeeEvent.parseCall request.body]) := by
    unfold async_webhook_handler webhook_received
    rw [hbody, hauth, hparse]
    simp
  refine ⟨h, ?_⟩
  rw [h]
  simp

/-- Witness for C3 at a concrete request. -/
theorem webhook_parse_error_bad_request_witness :
    async_webhook_handler (fun _ : Nat => Except.error "bad message") "secret"
        { body_exists := true, authorization := some "secret", body := 7 } =
      ({ result := "bad message", status_code := 400 }, [TedeeEvent.parseCall 7]) ∧
    TedeeEvent.notifyListeners ∉
      (async_webhook_handler (fun _ : Nat => Except.error "bad message") "secret"
        { body_exists := true, authorization := some "secret", body := 7 }).2 :=
  webhook_parse_error_bad_request _ _ _ _ rfl rfl rfl

/-- C8: a POST request without a body is answered with the envelope result
"No Body" and HTTP status 400, whatever the Authorization header holds: the
missing-body check precedes the shared-secret check, so a bodyless request is
never answered with 401, and no effect happens. -/
theorem webhook_no_body_bad_request {β : Type}
    (parse_webhook_message : β → Except String Unit) (api_key : String)
    (authorization : Option String) (body : β) :
    async_webhook_handler parse_webhook_message api_key
        { body_exists := false, authorization := authorization, body := body } =
      ({ result := "No Body", status_code := 400 }, []) := rfl

/-- C7 counterexample: the shared secret bound into the webhook handler does
not originate from the Tedee bridge.  If it did, it would be a function of
the bridge data alone; but with the bridge fixed, two different local random
streams give two different keys, so no such function exists. -/
theorem api_key_not_bridge_originated :
    ¬ ∃ f : TedeeBridge → String,
      ∀ (bridge : TedeeBridge) (choice : Nat → Nat),
        (register_webhook bridge choice).handler_api_key = f bridge := by
  rintro ⟨f, hf⟩
  have h0 := hf ⟨"serial", "name"⟩ (fun _ => 0)
  have h1 := hf ⟨"serial", "name"⟩ (fun _ => 1)
  exact absurd (h0.trans h1.symm) (by decide)

/-- C7 amended: the shared secret the handler requires is produced inside the
integration by generate_api_key from the local random stream, for every
bridge, and exactly this integration-generated value is what register_webhook
sends to the bridge as the Authorization header. -/
theorem api_key_integration_generated (bridge : TedeeBridge)
    (choice : Nat → Nat) :
    (register_webhook bridge choice).handler_api_key =
      generate_api_key choice 16 ∧
    (register_webhook bridge choice).bridge_headers_authorization =
      (register_webhook bridge choice).handler_api_key := ⟨rfl, rfl⟩

/-- C9: once _current_locks is non-empty it is never reassigned, every
refresh fires every registered callback for every lock id of the fetched key
set that is absent from that frozen initial set — so a lock appearing later
re-triggers the callbacks on every subsequent refresh — and the assignment
happens only from an empty set, in which case no callback fires. -/
theorem current_locks_frozen_callbacks_refire (new_lock_callbacks : Nat)
    (c : Finset Nat) (hc : c ≠ ∅) (updates : List (Finset Nat)) :
    update_data_locks_run new_lock_callbacks c updates =
      (c, updates.map
        (fun keys => Finset.product (keys \ c) (Finset.range new_lock_callbacks))) ∧
    (∀ keys, (update_data_locks_step new_lock_callbacks c keys).1 = c) ∧
    (∀ keys lock i, lock ∈ keys → lock ∉ c → i < new_lock_callbacks →
      (lock, i) ∈ (update_data_locks_step new_lock_callbacks c keys).2) ∧
    (∀ keys : Finset Nat,
      update_data_locks_step new_lock_callbacks ∅ keys = (keys, ∅)) := by
  have hstep : ∀ keys, update_data_locks_step new_lock_callbacks c keys =
      (c, Finset.product (keys \ c) (Finset.range new_lock_callbacks)) := by
    intro keys
    unfold update_data_locks_step
    simp [hc]
  refine ⟨?_, fun keys => by rw [hstep], ?_, ?_⟩
  · induction updates with
    | nil => simp [update_data_locks_run]
    | cons keys rest ih => simp [update_data_locks_run, hstep, ih]
  · intro keys lock i hl hnc hi
    rw [hstep]
    exact Finset.mem_product.mpr
      ⟨Finset.mem_sdiff.mpr ⟨hl, hnc⟩, Finset.mem_range.mpr hi⟩
  · intro keys
    unfold update_data_locks_step
    simp
    rfl

/-- Witness for C9: with one registered callback, initial set of lock 1, and
two refreshes each returning locks 1 and 2, the set stays at lock 1 and the
callback fires for lock 2 on both refreshes. -/
theorem current_locks_frozen_callbacks_refire_witness :
    ({1} : Finset Nat) ≠ ∅ ∧
    update_data_locks_run 1 {1} [{1, 2}, {1, 2}] =
      ({1}, [{1, 2}, {1, 2}].map
        (fun keys => Finset.product (keys \ ({1} : Finset Nat)) (Finset.range 1))) :=
  ⟨by decide,
    (current_locks_frozen_callbacks_refire 1 {1} (by decide) [{1, 2}, {1, 2}]).1⟩

end Tedee

/-- C4: in both coordinators each caught vendor exception is re-raised
one-to-one as its host-framework exception and nothing else happens: Tedee
maps TedeeLocalAuthException to ConfigEntryAuthFailed and
TedeeDataUpdateException, TedeeClientException and TimeoutError to
UpdateFailed; La Marzocco maps AuthFail to ConfigEntryAuthFailed and
RequestNotSuccessful to UpdateFailed; successes pass through, and the update
function is awaited exactly once, so there is no retry, recovery or backoff. -/
theorem coordinator_vendor_exception_mapping (m : String) :
    Tedee.coordinator_async_update
        (fun _ => Except.error (Tedee.TedeeExc.tedeeLocalAuthException m)) =
      (Outcome.configEntryAuthFailed
        "Authentication failed. Local access token is invalid", 1) ∧
    Tedee.coordinator_async_update
        (fun _ => Except.error (Tedee.TedeeExc.tedeeDataUpdateException m)) =
      (Outcome.updateFailed ("Error while updating data: " ++ m), 1) ∧
    Tedee.coordinator_async_update
        (fun _ => Except.error (Tedee.TedeeExc.tedeeClientException m)) =
      (Outcome.updateFailed ("Querying API failed. Error: " ++ m), 1) ∧
    Tedee.coordinator_async_update
        (fun _ => Except.error (Tedee.TedeeExc.timeoutError m)) =
      (Outcome.updateFailed ("Querying API failed. Error: " ++ m), 1) ∧
    Tedee.coordinator_async_update (fun _ => Except.ok ()) = (Outcome.ok, 1) ∧
    LaMarzocco.coordinator_handle_request
        (fun _ => Except.error (LaMarzocco.LmExc.authFail m)) =
      (Outcome.configEntryAuthFailed "Authentication failed.", 1) ∧
    LaMarzocco.coordinator_handle_request
        (fun _ => Except.error (LaMarzocco.LmExc.requestNotSuccessful m)) =
      (Outcome.updateFailed ("Querying API failed. Error: " ++ m), 1) ∧
    LaMarzocco.coordinator_handle_request (fun _ => Except.ok ()) =
      (Outcome.ok, 1) ∧
    (∀ update_fn, (Tedee.coordinator_async_update update_fn).2 = 1) ∧
    (∀ func, (LaMarzocco.coordinator_handle_request func).2 = 1) := by
  refine ⟨rfl, rfl, rfl, rfl, rfl, rfl, rfl, rfl, ?_, ?_⟩
  · intro update_fn
    unfold Tedee.coordinator_async_update
    rcases update_fn 0 with e | v
    · cases e <;> rfl
    · rfl
  · intro func
    unfold LaMarzocco.coordinator_handle_request
    rcases func 0 with e | v
    · cases e <;> rfl
    · rfl

namespace LaMarzocco

/-- C5: the service helper raises HomeAssistantError exactly when the
forwarded vendor coroutine raises AuthFail, RequestNotSuccessful or
TimeoutError, each mapped to the service-call message; any other exception
propagates unchanged; a successful vendor call returns normally with its
result untransformed. -/
theorem call_service_error_mapping (m : String)
    (func : Nat → Except LmExc Unit) :
    call_service (fun _ => Except.ok ()) = (Outcome.ok, 1) ∧
    call_service (fun _ => Except.error (LmExc.authFail m)) =
      (Outcome.homeAssistantError ("Service call encountered error: " ++ m), 1) ∧
    call_service (fun _ => Except.error (LmExc.requestNotSuccessful m)) =
      (Outcome.homeAssistantError ("Service call encountered error: " ++ m), 1) ∧
    call_service (fun _ => Except.error (LmExc.timeoutError m)) =
      (Outcome.homeAssistantError ("Service call encountered error: " ++ m), 1) ∧
    call_service (fun _ => Except.error (LmExc.otherException m)) =
      (Outcome.uncaught (LmExc.otherException m), 1) ∧
    ((∃ m2, (call_service func).1 = Outcome.homeAssistantError m2) ↔
      (∃ m2, func 0 = Except.error (LmExc.authFail m2) ∨
        func 0 = Except.error (LmExc.requestNotSuccessful m2) ∨
        func 0 = Except.error (LmExc.timeoutError m2))) := by
  refine ⟨rfl, rfl, rfl, rfl, rfl, ?_⟩
  rcases h : func 0 with e | v
  · cases e <;> simp [call_service, h]
  · simp [call_service, h]

/-- C6, evaluated at the failing input: on a status holding on-time 3 and
off-time 2 for key 1, the prebrew_off entity reports 3 (the on-time field)
instead of the off-time 2, and the prebrew_on entity reports the default 5
(its lookup key carries a stray trailing bracket) instead of the on-time 3;
both native values differ from the field each claim names. -/
theorem prebrew_native_value_swapped_eval :
    prebrew_off_native_value_fn
        [("prebrewing_ton_k1", 3), ("prebrewing_toff_k1", 2)] 1 = 3 ∧
    prebrew_on_native_value_fn
        [("prebrewing_ton_k1", 3), ("prebrewing_toff_k1", 2)] 1 = 5 ∧
    prebrew_off_time_field
        [("prebrewing_ton_k1", 3), ("prebrewing_toff_k1", 2)] 1 = 2 ∧
    prebrew_on_time_field
        [("prebrewing_ton_k1", 3), ("prebrewing_toff_k1", 2)] 1 = 3 ∧
    prebrew_off_native_value_fn
        [("prebrewing_ton_k1", 3), ("prebrewing_toff_k1", 2)] 1 ≠
      prebrew_off_time_field
        [("prebrewing_ton_k1", 3), ("prebrewing_toff_k1", 2)] 1 ∧
    prebrew_on_native_value_fn
        [("prebrewing_ton_k1", 3), ("prebrewing_toff_k1", 2)] 1 ≠
      prebrew_on_time_field
        [("prebrewing_ton_k1", 3), ("prebrewing_toff_k1", 2)] 1 := by
  decide

/-- C10: when the vendor update function reports failure, async_install
raises HomeAssistantError with message "Update failed" and leaves
_update_in_progress at True, so in_progress keeps reporting True; only the
success path resets the flag to False. -/
theorem update_install_failure_keeps_in_progress (entity : UpdateEntityState) :
    async_install entity false =
      ({ _update_in_progress := true }, some "Update failed") ∧
    in_progress (async_install entity false).1 = true ∧
    async_install entity true =
      ({ _update_in_progress := false }, none) :=
  ⟨rfl, rfl, rfl⟩

end LaMarzocco
